import Mathlib

/-!
# Verification of `rescale.py` (hetzner-scaler)

A shallow embedding of the orchestration logic of `src/rescale.py`.

The script talks to a remote HTTP API and to an operator console.  We model
the remote side by an `Env`: a stream of responses to `GET /servers/{id}`
(indexed by how many such fetches the run has issued so far), a response for
each named server action (`POST .../actions/{action}`), and a response for the
`change_type` action.  The operator's answer to the single confirmation
prompt is the string `Env.confirm`.

Each Python function becomes a Lean function that returns the list of
observable events it produces (remote calls, sleeps, timeout comparisons,
printed messages, the prompt) together with its return value and the index of
the next unconsumed GET response.  Wall-clock time is modelled by the `sleep`
events: the poll loop sleeps 1 time unit per iteration, so the elapsed time
compared against the timeout equals the number of completed iterations.
Cosmetic spinner writes (`sys.stdout.write`) carry no information and are not
recorded as events.  `sys.exit(msg)` prints `msg` and exits with status 1;
falling off the end of `main` exits with status 0.
-/

namespace Rescale

/-- Python's `str.lower()`, modelled as the ASCII case map over the string's
character list (the script only ever compares the lowercased reply against
the ASCII string `"y"`). -/
def pyLower (s : String) : String := ⟨s.data.map Char.toLower⟩

/-- Response to `GET /servers/{id}`: HTTP status code, the `server.status`
field of the parsed JSON body, and the raw response text (used in error
messages). -/
structure GetResponse where
  status_code : Nat
  status : String
  text : String
deriving DecidableEq, Repr

/-- Response to a `POST .../actions/...` call: HTTP status code and raw
response text. -/
structure ActionResponse where
  status_code : Nat
  text : String
deriving DecidableEq, Repr

/-- The run's environment: the operator's confirmation input and the remote
API's responses.  `getR k` is the response to the `(k+1)`-th GET issued in
the run; `actionResp a` is the response to `POST .../actions/{a}`;
`changeTypeResp` is the response to the `change_type` action. -/
structure Env where
  confirm : String
  getR : Nat → GetResponse
  actionResp : String → ActionResponse
  changeTypeResp : ActionResponse

/-- `get_server`: the `(k+1)`-th GET of the run. -/
def get_server (env : Env) (k : Nat) : GetResponse := env.getR k

/-- `server_action`: POST an action (poweron, poweroff, reboot) by name. -/
def server_action (env : Env) (a : String) : ActionResponse := env.actionResp a

/-- `change_server_type`: POST the `change_type` action. -/
def change_server_type (env : Env) : ActionResponse := env.changeTypeResp

/-- Observable events of a run.  `fetch` is a GET of the server resource;
`action a` is `POST .../actions/{a}`; `actionChangeType t u` is
`POST .../actions/change_type` with body `{server_type := t, upgrade_disk := u}`;
`timeoutCheck` is an evaluation of `time.time() - start_time > timeout`;
`sleep n` is `time.sleep(n)`; `prompt` is the `input()` call of the
confirmation gate; `printed s` is a console message. -/
inductive Event where
  | printed (s : String)
  | prompt
  | fetch
  | action (name : String)
  | actionChangeType (server_type : String) (upgrade_disk : Bool)
  | timeoutCheck
  | sleep (n : Nat)
deriving DecidableEq, Repr

/-- The message `print(f"Error {code}: {text}")`. -/
def errMsg (code : Nat) (text : String) : String :=
  "Error " ++ toString code ++ ": " ++ text

def timeoutMsg : String := "Timed out waiting for server status change."
def introMsg : String :=
  "The server will be stopped if it is already running, to rescale it."
def abortedMsg : String := "Aborted."
def checkErrMsg : String := "Error occurred while checking server's running status."
def runningMsg : String := "Server is currently running."
def notRunningMsg : String := "Server is not running."
def stoppingMsg : String := "Server stopping..."
def stoppedMsg : String := "Server stopped successfully."
def settleMsg : String := "Waiting 5 seconds before proceeding."
def stopFailMsg : String := "Failed to stop server."

/-- The message `print(f"Server scaling to {t} started successfully.")`. -/
def scalingMsg (t : String) : String :=
  "Server scaling to " ++ t ++ " started successfully."

def bootMsg : String := "Waiting for server to boot."
def accessibleMsg : String := "Rescaled server now accessible"
def restartFailMsg : String := "Failed to restart rescaled server."

/-- How a wait loop ended: target status observed (Python returns `True`),
a fetch came back with an unexpected HTTP code (returns `False`), or the
timeout budget was exceeded (returns `False`). -/
inductive WaitOutcome where
  | reached
  | fetchError
  | timedOut
deriving DecidableEq, Repr

/-- The boolean actually returned by `wait_for_server_status`. -/
def WaitOutcome.toBool : WaitOutcome → Bool
  | .reached => true
  | .fetchError => false
  | .timedOut => false

/-- Result of a wait: its events, how it ended, and the index of the next
unconsumed GET response. -/
structure WaitResult where
  events : List Event
  outcome : WaitOutcome
  next : Nat
deriving DecidableEq, Repr

/-- The body of `wait_for_server_status`'s `while True` loop, one fuel unit
per iteration.  `k` is the index of the next GET response, `elapsed` the
wall-clock seconds since the loop started (1 per completed sleep).  Each
iteration fetches; on the expected `code` with the target `status` it returns
`True` at once; on the expected code with another status it compares elapsed
time against the timeout (returning `False` with a message when exceeded)
and otherwise sleeps 1 unit and loops; on any other HTTP code it prints the
code and body and returns `False` at once.  The loop runs at most
`timeout + 2` iterations (elapsed grows by 1 each time and the loop stops
once it exceeds `timeout`), so with fuel `timeout + 2` the fuel-exhaustion
branch is unreachable (`waitFrom_fuel_irrelevant` below). -/
def waitFrom (env : Env) (target : String) (code : Nat) (timeout : Nat)
    (k : Nat) (elapsed : Nat) : Nat → WaitResult
  | 0 => ⟨[], .timedOut, k⟩
  | fuel + 1 =>
    let r := get_server env k
    if r.status_code = code then
      if r.status = target then
        ⟨[.fetch], .reached, k + 1⟩
      else if elapsed > timeout then
        ⟨[.fetch, .timeoutCheck, .printed timeoutMsg], .timedOut, k + 1⟩
      else
        let rest := waitFrom env target code timeout (k + 1) (elapsed + 1) fuel
        ⟨.fetch :: .timeoutCheck :: .sleep 1 :: rest.events, rest.outcome, rest.next⟩
    else
      ⟨[.fetch, .printed (errMsg r.status_code r.text)], .fetchError, k + 1⟩

/-- `wait_for_server_status(server_id, status, status_code=200, timeout=300)`:
run the poll loop from elapsed time 0 with enough fuel that it never runs
out. -/
def wait_for_server_status (env : Env) (target : String) (k : Nat)
    (code : Nat := 200) (timeout : Nat := 300) : WaitResult :=
  waitFrom env target code timeout k 0 (timeout + 2)

/-- Result of `server_is_running`: events, `True`/`False`/`None` (`none`
models Python's `None` on a failed fetch), next GET index. -/
structure CheckResult where
  events : List Event
  result : Option Bool
  next : Nat
deriving DecidableEq, Repr

/-- `server_is_running`: one GET; on HTTP 200 return whether the status
field equals `"running"`, otherwise print the error and return `None`. -/
def server_is_running (env : Env) (k : Nat) : CheckResult :=
  let r := get_server env k
  if r.status_code = 200 then
    ⟨[.fetch], some (r.status == "running"), k + 1⟩
  else
    ⟨[.fetch, .printed (errMsg r.status_code r.text)], none, k + 1⟩

/-- Result of `stop_server`: events, the returned boolean, next GET index. -/
structure StopResult where
  events : List Event
  ok : Bool
  next : Nat
deriving DecidableEq, Repr

/-- `stop_server`: POST `poweroff`; on HTTP 201 wait for status `"off"`
(defaults: expected code 200, timeout 300); if the wait succeeds, sleep 5
units and return `True`; if it fails, return `False`; if the poweroff call
is not accepted, print its code and body and return `False`. -/
def stop_server (env : Env) (k : Nat) : StopResult :=
  let resp := server_action env "poweroff"
  if resp.status_code = 201 then
    let w := wait_for_server_status env "off" k
    if w.outcome.toBool then
      ⟨.action "poweroff" :: .printed stoppingMsg :: w.events ++
        [.printed stoppedMsg, .printed settleMsg, .sleep 5], true, w.next⟩
    else
      ⟨.action "poweroff" :: .printed stoppingMsg :: w.events ++
        [.printed stopFailMsg], false, w.next⟩
  else
    ⟨[.action "poweroff", .printed (errMsg resp.status_code resp.text)], false, k⟩

/-- `scale_server`: POST `change_type` with the requested type and
disk-upgrade flag; accepted iff the response code is 201, otherwise print
the code and body and return `False`. -/
def scale_server (env : Env) (server_type : String) (upgrade_disk : Bool) :
    List Event × Bool :=
  let resp := change_server_type env
  if resp.status_code = 201 then
    ([.actionChangeType server_type upgrade_disk, .printed (scalingMsg server_type)],
      true)
  else
    ([.actionChangeType server_type upgrade_disk,
      .printed (errMsg resp.status_code resp.text)], false)

/-- A whole run's result: its events and the process exit status. -/
structure RunResult where
  events : List Event
  exitCode : Nat
deriving DecidableEq, Repr

/-- The tail of `main` from `scale_server` on: on acceptance print the
scaling message, print the boot message, wait for status `"running"`
(defaults), and either print the success message and exit 0 or
`sys.exit("Failed to restart rescaled server.")`; on rejection
`sys.exit("Aborted.")`. -/
def mainScale (env : Env) (server_type : String) (upgrade_disk : Bool)
    (k : Nat) : RunResult :=
  let sc := scale_server env server_type upgrade_disk
  if sc.2 then
    let w := wait_for_server_status env "running" k
    if w.outcome.toBool then
      ⟨sc.1 ++ [.printed bootMsg] ++ w.events ++ [.printed accessibleMsg], 0⟩
    else
      ⟨sc.1 ++ [.printed bootMsg] ++ w.events ++ [.printed restartFailMsg], 1⟩
  else
    ⟨sc.1 ++ [.printed abortedMsg], 1⟩

/-- The body of `main` after the confirmation gate has passed: check the
running status; on a failed fetch print the error and `sys.exit("Aborted.")`;
if running, print so and run `stop_server`, aborting if it fails; otherwise
print that it is not running; then proceed to `mainScale`. -/
def mainBody (env : Env) (server_type : String) (upgrade_disk : Bool) :
    RunResult :=
  let c := server_is_running env 0
  match c.result with
  | none => ⟨c.events ++ [.printed checkErrMsg, .printed abortedMsg], 1⟩
  | some true =>
    let s := stop_server env c.next
    if s.ok then
      let r := mainScale env server_type upgrade_disk s.next
      ⟨c.events ++ [.printed runningMsg] ++ s.events ++ r.events, r.exitCode⟩
    else
      ⟨c.events ++ [.printed runningMsg] ++ s.events ++ [.printed abortedMsg], 1⟩
  | some false =>
    let r := mainScale env server_type upgrade_disk c.next
    ⟨c.events ++ [.printed notRunningMsg] ++ r.events, r.exitCode⟩

/-- `main`: print the introductory message, prompt for confirmation, and
`sys.exit("Aborted.")` unless the lowercased reply is `"y"`; otherwise run
the rest of the sequence (`mainBody`). -/
def main (env : Env) (server_type : String) (upgrade_disk : Bool) : RunResult :=
  if pyLower env.confirm ≠ "y" then
    ⟨[.printed introMsg, .prompt, .printed abortedMsg], 1⟩
  else
    let b := mainBody env server_type upgrade_disk
    ⟨.printed introMsg :: .prompt :: b.events, b.exitCode⟩

/-! ## Helper predicates on traces -/

/-- Is the event a `change_type` invocation? -/
def isChangeType : Event → Bool
  | .actionChangeType _ _ => true
  | _ => false

/-- Is the event a state-changing remote call (a named action or a
`change_type`)? -/
def isMutation : Event → Bool
  | .action _ => true
  | .actionChangeType _ _ => true
  | _ => false

/-- The part of a trace strictly after its first `change_type` event, if
there is one. -/
def afterChangeType : List Event → Option (List Event)
  | [] => none
  | x :: xs => if isChangeType x then some xs else afterChangeType xs

/-- `precedesB a b l` holds when some occurrence of `a` in `l` is strictly
before an occurrence of `b`. -/
def precedesB (a b : Event) : List Event → Bool
  | [] => false
  | x :: xs => if x = a then xs.contains b else precedesB a b xs

/-- `precedesB` captures exactly the strict-precedence-of-occurrences
relation. -/
theorem precedesB_iff (a b : Event) (l : List Event) :
    precedesB a b l = true ↔
      ∃ i j, i < j ∧ l.get? i = some a ∧ l.get? j = some b := by
  induction l with
  | nil => simp [precedesB]
  | cons x xs ih =>
    by_cases hx : x = a
    · subst hx
      simp only [precedesB, if_pos rfl]
      constructor
      · intro h
        have hb : b ∈ xs := by simpa using h
        obtain ⟨j, hj⟩ := List.get?_of_mem hb
        exact ⟨0, j + 1, Nat.succ_pos j, rfl, by rw [List.get?_cons_succ]; exact hj⟩
      · rintro ⟨i, j, hij, hi, hj⟩
        cases j with
        | zero => omega
        | succ j =>
          rw [List.get?_cons_succ] at hj
          have hb : b ∈ xs := List.get?_mem hj
          simpa using hb
    · simp only [precedesB, if_neg hx]
      rw [ih]
      constructor
      · rintro ⟨i, j, hij, hi, hj⟩
        exact ⟨i + 1, j + 1, by omega,
          by rw [List.get?_cons_succ]; exact hi,
          by rw [List.get?_cons_succ]; exact hj⟩
      · rintro ⟨i, j, hij, hi, hj⟩
        cases i with
        | zero =>
          rw [List.get?_cons_zero] at hi
          exact absurd (Option.some_injective _ hi) hx
        | succ i =>
          cases j with
          | zero => omega
          | succ j =>
            rw [List.get?_cons_succ] at hi hj
            exact ⟨i, j, by omega, hi, hj⟩

/-- If no element of `A` is a `change_type` event, the first `change_type`
of `A ++ B` is the first one of `B`. -/
theorem afterChangeType_append_left (A B : List Event)
    (h : ∀ e ∈ A, isChangeType e = false) :
    afterChangeType (A ++ B) = afterChangeType B := by
  induction A with
  | nil => rfl
  | cons x xs ih =>
    have hx := h x (by simp)
    show afterChangeType (x :: (xs ++ B)) = afterChangeType B
    rw [afterChangeType, if_neg (by simp [hx])]
    exact ih fun e he => h e (by simp [he])

/-- A trace without `change_type` events has no part after one. -/
theorem afterChangeType_eq_none (l : List Event)
    (h : ∀ e ∈ l, isChangeType e = false) :
    afterChangeType l = none := by
  have := afterChangeType_append_left l [] h
  simpa using this

/-! ## Structure of the wait loop's trace -/

/-- Every event the poll loop emits is a fetch, a timeout comparison, a
1-unit sleep, or a printed message. -/
theorem waitFrom_events_shape (env : Env) (target : String) (code timeout : Nat) :
    ∀ fuel k elapsed,
      ∀ e ∈ (waitFrom env target code timeout k elapsed fuel).events,
        e = .fetch ∨ e = .timeoutCheck ∨ e = .sleep 1 ∨ ∃ s, e = .printed s := by
  intro fuel
  induction fuel with
  | zero => intro k elapsed e he; simp [waitFrom] at he
  | succ fuel ih =>
    intro k elapsed e he
    simp only [waitFrom] at he
    by_cases h1 : (get_server env k).status_code = code
    · rw [if_pos h1] at he
      by_cases h2 : (get_server env k).status = target
      · rw [if_pos h2] at he
        simp at he
        exact Or.inl he
      · rw [if_neg h2] at he
        by_cases h3 : elapsed > timeout
        · rw [if_pos h3] at he
          simp at he
          rcases he with he | he | he
          · exact Or.inl he
          · exact Or.inr (Or.inl he)
          · exact Or.inr (Or.inr (Or.inr ⟨_, he⟩))
        · rw [if_neg h3] at he
          simp only [List.mem_cons] at he
          rcases he with he | he | he | he
          · exact Or.inl he
          · exact Or.inr (Or.inl he)
          · exact Or.inr (Or.inr (Or.inl he))
          · exact ih _ _ e he
    · rw [if_neg h1] at he
      simp at he
      rcases he with he | he
      · exact Or.inl he
      · exact Or.inr (Or.inr (Or.inr ⟨_, he⟩))

/-- When the loop ends because the target status was observed, its trace
consists only of fetches, timeout comparisons and 1-unit sleeps (no
messages). -/
theorem waitFrom_reached_shape (env : Env) (target : String) (code timeout : Nat) :
    ∀ fuel k elapsed,
      (waitFrom env target code timeout k elapsed fuel).outcome = .reached →
      ∀ e ∈ (waitFrom env target code timeout k elapsed fuel).events,
        e = .fetch ∨ e = .timeoutCheck ∨ e = .sleep 1 := by
  intro fuel
  induction fuel with
  | zero => intro k elapsed h; simp [waitFrom] at h
  | succ fuel ih =>
    intro k elapsed h e he
    simp only [waitFrom] at h he
    by_cases h1 : (get_server env k).status_code = code
    · rw [if_pos h1] at h he
      by_cases h2 : (get_server env k).status = target
      · rw [if_pos h2] at he
        simp at he
        exact Or.inl he
      · rw [if_neg h2] at h he
        by_cases h3 : elapsed > timeout
        · rw [if_pos h3] at h
          simp at h
        · rw [if_neg h3] at h he
          simp only [List.mem_cons] at he
          rcases he with he | he | he | he
          · exact Or.inl he
          · exact Or.inr (Or.inl he)
          · exact Or.inr (Or.inr he)
          · exact ih _ _ h e he
    · rw [if_neg h1] at h
      simp at h

/-- The fuel `timeout + 2` given to the loop by `wait_for_server_status` is
never exhausted: under the loop's invariant `elapsed ≤ timeout + 1`, any two
sufficient fuels give the same result. -/
theorem waitFrom_fuel_irrelevant (env : Env) (target : String) (code timeout : Nat) :
    ∀ fuel₁ fuel₂ k elapsed, elapsed ≤ timeout + 1 →
      timeout + 2 ≤ elapsed + fuel₁ → timeout + 2 ≤ elapsed + fuel₂ →
      waitFrom env target code timeout k elapsed fuel₁ =
        waitFrom env target code timeout k elapsed fuel₂ := by
  intro fuel₁
  induction fuel₁ with
  | zero => intro fuel₂ k elapsed h₀ h₁ h₂; omega
  | succ fuel₁ ih =>
    intro fuel₂ k elapsed h₀ h₁ h₂
    cases fuel₂ with
    | zero => omega
    | succ fuel₂ =>
      simp only [waitFrom]
      by_cases hc1 : (get_server env k).status_code = code
      · rw [if_pos hc1, if_pos hc1]
        by_cases hc2 : (get_server env k).status = target
        · rw [if_pos hc2, if_pos hc2]
        · rw [if_neg hc2, if_neg hc2]
          by_cases hc3 : elapsed > timeout
          · rw [if_pos hc3, if_pos hc3]
          · rw [if_neg hc3, if_neg hc3]
            rw [ih fuel₂ (k + 1) (elapsed + 1) (by omega) (by omega) (by omega)]
      · rw [if_neg hc1, if_neg hc1]

/-- A timed-out wait prints the timeout message (under the invariant that
actually holds when the loop starts at elapsed time 0 with fuel
`timeout + 2`). -/
theorem waitFrom_timedOut_mem (env : Env) (target : String) (code timeout : Nat) :
    ∀ fuel k elapsed, timeout + 2 ≤ elapsed + fuel → elapsed ≤ timeout + 1 →
      (waitFrom env target code timeout k elapsed fuel).outcome = .timedOut →
      .printed timeoutMsg ∈ (waitFrom env target code timeout k elapsed fuel).events := by
  intro fuel
  induction fuel with
  | zero => intro k elapsed h₁ h₂ _; omega
  | succ fuel ih =>
    intro k elapsed h₁ h₂ h
    simp only [waitFrom] at h ⊢
    by_cases hc1 : (get_server env k).status_code = code
    · rw [if_pos hc1] at h ⊢
      by_cases hc2 : (get_server env k).status = target
      · rw [if_pos hc2] at h
        simp at h
      · rw [if_neg hc2] at h ⊢
        by_cases hc3 : elapsed > timeout
        · rw [if_pos hc3]
          simp
        · rw [if_neg hc3] at h ⊢
          simp only [List.mem_cons]
          exact Or.inr (Or.inr (Or.inr (ih (k + 1) (elapsed + 1) (by omega) (by omega) h)))
    · rw [if_neg hc1] at h
      simp at h

/-- Trace shape transferred to `wait_for_server_status`. -/
theorem wait_events_shape (env : Env) (target : String) (k code timeout : Nat) :
    ∀ e ∈ (wait_for_server_status env target k code timeout).events,
      e = .fetch ∨ e = .timeoutCheck ∨ e = .sleep 1 ∨ ∃ s, e = .printed s :=
  fun e he => waitFrom_events_shape env target code timeout (timeout + 2) k 0 e he

/-- A wait issues no state-changing remote call. -/
theorem wait_no_mutation (env : Env) (target : String) (k code timeout : Nat) :
    ∀ e ∈ (wait_for_server_status env target k code timeout).events,
      isMutation e = false := by
  intro e he
  rcases wait_events_shape env target k code timeout e he with h | h | h | ⟨s, h⟩ <;>
    subst h <;> rfl

/-- A wait issues no `change_type` call. -/
theorem wait_no_changeType (env : Env) (target : String) (k code timeout : Nat) :
    ∀ e ∈ (wait_for_server_status env target k code timeout).events,
      isChangeType e = false := by
  intro e he
  rcases wait_events_shape env target k code timeout e he with h | h | h | ⟨s, h⟩ <;>
    subst h <;> rfl

/-- A wait never prompts the operator. -/
theorem wait_no_prompt (env : Env) (target : String) (k code timeout : Nat) :
    Event.prompt ∉ (wait_for_server_status env target k code timeout).events := by
  intro hmem
  rcases wait_events_shape env target k code timeout _ hmem with h | h | h | ⟨s, h⟩ <;>
    simp at h

/-- A successful wait's trace is pure polling: fetches, timeout comparisons
and 1-unit sleeps. -/
theorem wait_reached_shape (env : Env) (target : String) (k code timeout : Nat)
    (h : (wait_for_server_status env target k code timeout).outcome = .reached) :
    ∀ e ∈ (wait_for_server_status env target k code timeout).events,
      e = .fetch ∨ e = .timeoutCheck ∨ e = .sleep 1 :=
  waitFrom_reached_shape env target code timeout (timeout + 2) k 0 h

/-- A timed-out wait reports the timeout on the console. -/
theorem wait_timedOut_mem (env : Env) (target : String) (k code timeout : Nat)
    (h : (wait_for_server_status env target k code timeout).outcome = .timedOut) :
    Event.printed timeoutMsg ∈ (wait_for_server_status env target k code timeout).events :=
  waitFrom_timedOut_mem env target code timeout (timeout + 2) k 0 (by omega) (by omega) h

/-! ## Equation lemmas for the orchestrator's components -/

theorem server_is_running_true (env : Env) (k : Nat)
    (h200 : (get_server env k).status_code = 200)
    (hrun : (get_server env k).status = "running") :
    server_is_running env k = ⟨[.fetch], some true, k + 1⟩ := by
  rw [server_is_running, if_pos h200]
  simp [hrun]

theorem server_is_running_false (env : Env) (k : Nat)
    (h200 : (get_server env k).status_code = 200)
    (hne : (get_server env k).status ≠ "running") :
    server_is_running env k = ⟨[.fetch], some false, k + 1⟩ := by
  rw [server_is_running, if_pos h200]
  simp [hne]

theorem server_is_running_none (env : Env) (k : Nat)
    (hne : (get_server env k).status_code ≠ 200) :
    server_is_running env k =
      ⟨[.fetch, .printed (errMsg (get_server env k).status_code (get_server env k).text)],
        none, k + 1⟩ := by
  rw [server_is_running, if_neg hne]

theorem stop_server_ok (env : Env) (k : Nat)
    (hpo : (server_action env "poweroff").status_code = 201)
    (hw : (wait_for_server_status env "off" k).outcome.toBool = true) :
    stop_server env k =
      ⟨.action "poweroff" :: .printed stoppingMsg ::
          (wait_for_server_status env "off" k).events ++
          [.printed stoppedMsg, .printed settleMsg, .sleep 5],
        true, (wait_for_server_status env "off" k).next⟩ := by
  rw [stop_server, if_pos hpo, if_pos hw]

theorem stop_server_wait_failed (env : Env) (k : Nat)
    (hpo : (server_action env "poweroff").status_code = 201)
    (hw : (wait_for_server_status env "off" k).outcome.toBool = false) :
    stop_server env k =
      ⟨.action "poweroff" :: .printed stoppingMsg ::
          (wait_for_server_status env "off" k).events ++ [.printed stopFailMsg],
        false, (wait_for_server_status env "off" k).next⟩ := by
  rw [stop_server, if_pos hpo, if_neg (by simp [hw])]

theorem stop_server_rejected (env : Env) (k : Nat)
    (hpo : (server_action env "poweroff").status_code ≠ 201) :
    stop_server env k =
      ⟨[.action "poweroff",
          .printed (errMsg (server_action env "poweroff").status_code
            (server_action env "poweroff").text)], false, k⟩ := by
  rw [stop_server, if_neg hpo]

theorem scale_server_accepted (env : Env) (st : String) (d : Bool)
    (hct : (change_server_type env).status_code = 201) :
    scale_server env st d =
      ([.actionChangeType st d, .printed (scalingMsg st)], true) := by
  rw [scale_server, if_pos hct]

theorem scale_server_rejected (env : Env) (st : String) (d : Bool)
    (hct : (change_server_type env).status_code ≠ 201) :
    scale_server env st d =
      ([.actionChangeType st d,
        .printed (errMsg (change_server_type env).status_code
          (change_server_type env).text)], false) := by
  rw [scale_server, if_neg hct]

theorem mainScale_accepted (env : Env) (st : String) (d : Bool) (k : Nat)
    (hct : (change_server_type env).status_code = 201) :
    mainScale env st d k =
      ⟨[.actionChangeType st d, .printed (scalingMsg st), .printed bootMsg] ++
          (wait_for_server_status env "running" k).events ++
          [.printed (cond (wait_for_server_status env "running" k).outcome.toBool
            accessibleMsg restartFailMsg)],
        cond (wait_for_server_status env "running" k).outcome.toBool 0 1⟩ := by
  cases hb : (wait_for_server_status env "running" k).outcome.toBool
  · simp [mainScale, scale_server_accepted env st d hct, hb]
  · simp [mainScale, scale_server_accepted env st d hct, hb]

theorem mainScale_rejected (env : Env) (st : String) (d : Bool) (k : Nat)
    (hct : (change_server_type env).status_code ≠ 201) :
    mainScale env st d k =
      ⟨[.actionChangeType st d,
          .printed (errMsg (change_server_type env).status_code
            (change_server_type env).text),
          .printed abortedMsg], 1⟩ := by
  simp [mainScale, scale_server_rejected env st d hct]

/-- `main` under an affirmative confirmation. -/
theorem main_affirm (env : Env) (st : String) (d : Bool)
    (h : pyLower env.confirm = "y") :
    main env st d =
      ⟨.printed introMsg :: .prompt :: (mainBody env st d).events,
        (mainBody env st d).exitCode⟩ := by
  rw [main, if_neg (not_not_intro h)]

/-- `main` under a non-affirmative confirmation. -/
theorem main_decline (env : Env) (st : String) (d : Bool)
    (h : pyLower env.confirm ≠ "y") :
    main env st d = ⟨[.printed introMsg, .prompt, .printed abortedMsg], 1⟩ := by
  rw [main, if_pos h]

/-! ## Trace shapes of the orchestrator's components -/

/-- Everything `stop_server` emits: the poweroff action, poll events,
sleeps, or printed messages. -/
theorem stop_server_events_shape (env : Env) (k : Nat) :
    ∀ e ∈ (stop_server env k).events,
      e = .action "poweroff" ∨ e = .fetch ∨ e = .timeoutCheck ∨
        (∃ n, e = .sleep n) ∨ ∃ s, e = .printed s := by
  intro e he
  by_cases hpo : (server_action env "poweroff").status_code = 201
  · cases hw : (wait_for_server_status env "off" k).outcome.toBool
    · rw [stop_server_wait_failed env k hpo hw] at he
      simp at he
      rcases he with he | he | he | he
      · exact Or.inl he
      · exact Or.inr (Or.inr (Or.inr (Or.inr ⟨_, he⟩)))
      · rcases wait_events_shape env "off" k 200 300 e he with h | h | h | ⟨s, h⟩
        · exact Or.inr (Or.inl h)
        · exact Or.inr (Or.inr (Or.inl h))
        · exact Or.inr (Or.inr (Or.inr (Or.inl ⟨1, h⟩)))
        · exact Or.inr (Or.inr (Or.inr (Or.inr ⟨s, h⟩)))
      · exact Or.inr (Or.inr (Or.inr (Or.inr ⟨_, he⟩)))
    · rw [stop_server_ok env k hpo hw] at he
      simp at he
      rcases he with he | he | he | he | he | he
      · exact Or.inl he
      · exact Or.inr (Or.inr (Or.inr (Or.inr ⟨_, he⟩)))
      · rcases wait_events_shape env "off" k 200 300 e he with h | h | h | ⟨s, h⟩
        · exact Or.inr (Or.inl h)
        · exact Or.inr (Or.inr (Or.inl h))
        · exact Or.inr (Or.inr (Or.inr (Or.inl ⟨1, h⟩)))
        · exact Or.inr (Or.inr (Or.inr (Or.inr ⟨s, h⟩)))
      · exact Or.inr (Or.inr (Or.inr (Or.inr ⟨_, he⟩)))
      · exact Or.inr (Or.inr (Or.inr (Or.inr ⟨_, he⟩)))
      · exact Or.inr (Or.inr (Or.inr (Or.inl ⟨5, he⟩)))
  · rw [stop_server_rejected env k hpo] at he
    simp at he
    rcases he with he | he
    · exact Or.inl he
    · exact Or.inr (Or.inr (Or.inr (Or.inr ⟨_, he⟩)))

/-- `stop_server` never issues a `change_type` call. -/
theorem stop_server_no_changeType (env : Env) (k : Nat) :
    ∀ e ∈ (stop_server env k).events, isChangeType e = false := by
  intro e he
  rcases stop_server_events_shape env k e he with h | h | h | ⟨n, h⟩ | ⟨s, h⟩ <;>
    subst h <;> rfl

/-- `stop_server` never prompts the operator. -/
theorem stop_server_no_prompt (env : Env) (k : Nat) :
    Event.prompt ∉ (stop_server env k).events := by
  intro hmem
  rcases stop_server_events_shape env k _ hmem with h | h | h | ⟨n, h⟩ | ⟨s, h⟩ <;>
    simp at h

/-- `mainScale` never emits a named action event (its only state-changing
call is the `change_type`). -/
theorem mainScale_no_action (env : Env) (st : String) (d : Bool) (k : Nat) :
    ∀ e ∈ (mainScale env st d k).events, ∀ a, e ≠ .action a := by
  intro e he a
  by_cases hct : (change_server_type env).status_code = 201
  · rw [mainScale_accepted env st d k hct] at he
    simp at he
    rcases he with he | he | he | he | he
    · subst he; simp
    · subst he; simp
    · subst he; simp
    · rcases wait_events_shape env "running" k 200 300 e he with h | h | h | ⟨s, h⟩ <;>
        subst h <;> simp
    · subst he; simp
  · rw [mainScale_rejected env st d k hct] at he
    simp at he
    rcases he with he | he | he <;> subst he <;> simp

/-- `mainScale` never prompts the operator. -/
theorem mainScale_no_prompt (env : Env) (st : String) (d : Bool) (k : Nat) :
    Event.prompt ∉ (mainScale env st d k).events := by
  intro hmem
  by_cases hct : (change_server_type env).status_code = 201
  · rw [mainScale_accepted env st d k hct] at hmem
    simp at hmem
    exact wait_no_prompt env "running" k 200 300 hmem
  · rw [mainScale_rejected env st d k hct] at hmem
    simp at hmem

/-- Whatever comes after the `change_type` event in `mainScale`'s trace is
free of state-changing calls. -/
theorem mainScale_no_mutation_after (env : Env) (st : String) (d : Bool) (k : Nat) :
    ∀ post, afterChangeType (mainScale env st d k).events = some post →
      ∀ e ∈ post, isMutation e = false := by
  intro post hpost e he
  by_cases hct : (change_server_type env).status_code = 201
  · rw [mainScale_accepted env st d k hct] at hpost
    simp only [List.cons_append, List.nil_append, afterChangeType, isChangeType,
      if_true] at hpost
    rw [Option.some_inj] at hpost
    subst hpost
    simp at he
    rcases he with he | he | he | he
    · subst he; rfl
    · subst he; rfl
    · exact wait_no_mutation env "running" k 200 300 e he
    · subst he; rfl
  · rw [mainScale_rejected env st d k hct] at hpost
    simp only [afterChangeType, isChangeType, if_true] at hpost
    rw [Option.some_inj] at hpost
    subst hpost
    simp at he
    rcases he with he | he <;> subst he <;> rfl

/-! ## Equation lemmas for `mainBody`'s branches -/

theorem mainBody_check_failed (env : Env) (st : String) (d : Bool)
    (h200 : (get_server env 0).status_code ≠ 200) :
    mainBody env st d =
      ⟨[.fetch, .printed (errMsg (get_server env 0).status_code (get_server env 0).text),
          .printed checkErrMsg, .printed abortedMsg], 1⟩ := by
  rw [mainBody, server_is_running_none env 0 h200]
  rfl

theorem mainBody_not_running (env : Env) (st : String) (d : Bool)
    (h200 : (get_server env 0).status_code = 200)
    (hne : (get_server env 0).status ≠ "running") :
    mainBody env st d =
      ⟨.fetch :: .printed notRunningMsg :: (mainScale env st d 1).events,
        (mainScale env st d 1).exitCode⟩ := by
  rw [mainBody, server_is_running_false env 0 h200 hne]
  rfl

theorem mainBody_running_stop_failed (env : Env) (st : String) (d : Bool)
    (h200 : (get_server env 0).status_code = 200)
    (hrun : (get_server env 0).status = "running")
    (hok : (stop_server env 1).ok = false) :
    mainBody env st d =
      ⟨.fetch :: .printed runningMsg ::
          ((stop_server env 1).events ++ [.printed abortedMsg]), 1⟩ := by
  rw [mainBody, server_is_running_true env 0 h200 hrun]
  simp [hok]

theorem mainBody_running_stop_ok (env : Env) (st : String) (d : Bool)
    (h200 : (get_server env 0).status_code = 200)
    (hrun : (get_server env 0).status = "running")
    (hok : (stop_server env 1).ok = true) :
    mainBody env st d =
      ⟨.fetch :: .printed runningMsg ::
          ((stop_server env 1).events ++
            (mainScale env st d (stop_server env 1).next).events),
        (mainScale env st d (stop_server env 1).next).exitCode⟩ := by
  rw [mainBody, server_is_running_true env 0 h200 hrun]
  simp [hok]

/-- `mainBody` never prompts: the confirmation gate runs exactly once,
before it. -/
theorem mainBody_no_prompt (env : Env) (st : String) (d : Bool) :
    Event.prompt ∉ (mainBody env st d).events := by
  intro hmem
  by_cases h200 : (get_server env 0).status_code = 200
  · by_cases hrun : (get_server env 0).status = "running"
    · cases hok : (stop_server env 1).ok
      · rw [mainBody_running_stop_failed env st d h200 hrun hok] at hmem
        simp at hmem
        exact stop_server_no_prompt env 1 hmem
      · rw [mainBody_running_stop_ok env st d h200 hrun hok] at hmem
        simp at hmem
        rcases hmem with h | h
        · exact stop_server_no_prompt env 1 h
        · exact mainScale_no_prompt env st d (stop_server env 1).next h
    · rw [mainBody_not_running env st d h200 hrun] at hmem
      simp at hmem
      exact mainScale_no_prompt env st d 1 hmem
  · rw [mainBody_check_failed env st d h200] at hmem
    simp at hmem

/-- `mainBody`'s first event is the status fetch. -/
theorem mainBody_starts_fetch (env : Env) (st : String) (d : Bool) :
    ∃ tail, (mainBody env st d).events = .fetch :: tail := by
  by_cases h200 : (get_server env 0).status_code = 200
  · by_cases hrun : (get_server env 0).status = "running"
    · cases hok : (stop_server env 1).ok
      · rw [mainBody_running_stop_failed env st d h200 hrun hok]
        exact ⟨_, rfl⟩
      · rw [mainBody_running_stop_ok env st d h200 hrun hok]
        exact ⟨_, rfl⟩
    · rw [mainBody_not_running env st d h200 hrun]
      exact ⟨_, rfl⟩
  · rw [mainBody_check_failed env st d h200]
    exact ⟨_, rfl⟩

/-- Whatever follows the first `change_type` event of a `mainBody` trace is
free of state-changing calls. -/
theorem mainBody_no_mutation_after (env : Env) (st : String) (d : Bool) :
    ∀ post, afterChangeType (mainBody env st d).events = some post →
      ∀ e ∈ post, isMutation e = false := by
  intro post hpost
  by_cases h200 : (get_server env 0).status_code = 200
  · by_cases hrun : (get_server env 0).status = "running"
    · cases hok : (stop_server env 1).ok
      · rw [mainBody_running_stop_failed env st d h200 hrun hok] at hpost
        simp only [afterChangeType, isChangeType, if_false, Bool.false_eq_true,
          ite_false] at hpost
        rw [afterChangeType_append_left _ _ (stop_server_no_changeType env 1)] at hpost
        simp [afterChangeType, isChangeType] at hpost
      · rw [mainBody_running_stop_ok env st d h200 hrun hok] at hpost
        simp only [afterChangeType, isChangeType, if_false, Bool.false_eq_true,
          ite_false] at hpost
        rw [afterChangeType_append_left _ _ (stop_server_no_changeType env 1)] at hpost
        exact mainScale_no_mutation_after env st d (stop_server env 1).next post hpost
    · rw [mainBody_not_running env st d h200 hrun] at hpost
      simp only [afterChangeType, isChangeType, if_false, Bool.false_eq_true,
        ite_false] at hpost
      exact mainScale_no_mutation_after env st d 1 post hpost
  · rw [mainBody_check_failed env st d h200] at hpost
    simp [afterChangeType, isChangeType] at hpost

/-- Run-level: nothing after the first `change_type` event of a full run is
a state-changing call. -/
theorem main_no_mutation_after (env : Env) (st : String) (d : Bool) :
    ∀ post, afterChangeType (main env st d).events = some post →
      ∀ e ∈ post, isMutation e = false := by
  intro post hpost
  by_cases hconf : pyLower env.confirm = "y"
  · rw [main_affirm env st d hconf] at hpost
    simp only [afterChangeType, isChangeType, if_false, Bool.false_eq_true,
      ite_false] at hpost
    exact mainBody_no_mutation_after env st d post hpost
  · rw [main_decline env st d hconf] at hpost
    simp [afterChangeType, isChangeType] at hpost

/-! ## Configuration merging (module top level of the script) -/

/-- The fixed set of selectable machine sizes (argparse `choices`). -/
def server_type_choices : List String := ["cpx11", "cpx21", "cpx31", "cpx41", "cpx51"]

/-- The argparse default for `--server_type`. -/
def server_type_default : String := "cpx11"

/-- Parsed command-line arguments.  `api_key` and `server_id` are `none`
when the flag is absent (argparse's default `None`); `server_type` always
has a value (argparse supplies the default `"cpx11"`, restricted to
`server_type_choices`); `upgrade_disk` is a store-true flag, `false` when
not passed. -/
structure Args where
  api_key : Option String
  server_id : Option String
  server_type : String
  upgrade_disk : Bool
deriving DecidableEq, Repr

/-- The `[hetzner]` section of the configuration file; a `none` field means
the option is missing from the file. -/
structure ConfigFile where
  api_key : Option String
  server_id : Option String
  upgrade_disk : Option Bool
deriving DecidableEq, Repr

/-- `config.get("hetzner", option)`: raises `NoOptionError` when the option
is missing. -/
def configGet (v : Option String) (opt : String) : Except String String :=
  match v with
  | some s => .ok s
  | none => .error ("NoOptionError: " ++ opt)

/-- `api_key = args.api_key or config.get("hetzner", "api_key")`.  Python's
`or` evaluates its right operand only when the left operand is falsy, i.e.
absent (`None`) or the empty string. -/
def merged_api_key (a : Args) (c : ConfigFile) : Except String String :=
  match a.api_key with
  | some s => if s = "" then configGet c.api_key "api_key" else .ok s
  | none => configGet c.api_key "api_key"

/-- `server_id = args.server_id or config.get("hetzner", "server_id")`. -/
def merged_server_id (a : Args) (c : ConfigFile) : Except String String :=
  match a.server_id with
  | some s => if s = "" then configGet c.server_id "server_id" else .ok s
  | none => configGet c.server_id "server_id"

/-- `server_type = args.server_type`: taken from the command line alone;
the configuration file is never consulted for it. -/
def merged_server_type (a : Args) (_c : ConfigFile) : String := a.server_type

/-- `upgrade_disk = args.upgrade_disk or config.getboolean("hetzner",
"upgrade_disk", fallback=False)`: true when passed on the command line,
otherwise the file's value, defaulting to false. -/
def merged_upgrade_disk (a : Args) (c : ConfigFile) : Bool :=
  a.upgrade_disk || c.upgrade_disk.getD false

/-! ## Claims -/

/-- C1: for every run in which the operator's confirmation response is
non-affirmative, the program terminates with a non-zero exit status and
issues zero calls to any state-changing remote endpoint (poweroff, poweron,
reboot, change_type). -/
theorem C1_decline_no_mutation_nonzero_exit (env : Env) (st : String) (d : Bool)
    (h : pyLower env.confirm ≠ "y") :
    (main env st d).exitCode ≠ 0 ∧
      ∀ e ∈ (main env st d).events, isMutation e = false := by
  rw [main_decline env st d h]
  refine ⟨by simp, ?_⟩
  intro e he
  simp at he
  rcases he with he | he | he <;> subst he <;> rfl

/-- A run in which the operator answers `n`. -/
def declineEnv : Env :=
  ⟨"n", fun _ => ⟨200, "running", ""⟩, fun _ => ⟨201, ""⟩, ⟨201, ""⟩⟩

theorem C1_witness :
    (main declineEnv "cpx21" false).exitCode ≠ 0 ∧
      ∀ e ∈ (main declineEnv "cpx21" false).events, isMutation e = false :=
  C1_decline_no_mutation_nonzero_exit declineEnv "cpx21" false (by decide)

/-- C6: if a fetch during the poll loop returns a status code other than
the expected success code, the wait returns failure at once: the error
report is the only event after that fetch — no further fetch, no sleep and
no timeout comparison — both at an arbitrary loop iteration and for a whole
wait whose first fetch fails. -/
theorem C6_fetch_error_immediate (env : Env) (target : String)
    (code timeout k elapsed fuel : Nat)
    (h : (get_server env k).status_code ≠ code) :
    waitFrom env target code timeout k elapsed (fuel + 1) =
      ⟨[.fetch,
          .printed (errMsg (get_server env k).status_code (get_server env k).text)],
        .fetchError, k + 1⟩ ∧
    wait_for_server_status env target k code timeout =
      ⟨[.fetch,
          .printed (errMsg (get_server env k).status_code (get_server env k).text)],
        .fetchError, k + 1⟩ := by
  have e1 : wait_for_server_status env target k code timeout =
      waitFrom env target code timeout k 0 (timeout + 1 + 1) := rfl
  constructor
  · simp only [waitFrom]
    rw [if_neg h]
  · rw [e1]
    simp only [waitFrom]
    rw [if_neg h]

/-- A run whose server fetches all fail with HTTP 503. -/
def fetchErrEnv : Env :=
  ⟨"y", fun _ => ⟨503, "", "Service Unavailable"⟩, fun _ => ⟨201, ""⟩, ⟨201, ""⟩⟩

theorem C6_witness :
    waitFrom fetchErrEnv "off" 200 300 0 0 8 =
      ⟨[.fetch, .printed (errMsg 503 "Service Unavailable")], .fetchError, 1⟩ ∧
    wait_for_server_status fetchErrEnv "off" 0 =
      ⟨[.fetch, .printed (errMsg 503 "Service Unavailable")], .fetchError, 1⟩ :=
  C6_fetch_error_immediate fetchErrEnv "off" 200 300 0 0 7 (by decide)

/-- C10: every wait performs a fetch before any timeout comparison (its
trace starts with a fetch), and when the very first fetch succeeds and
already reports the target status the wait returns true immediately — one
fetch, no timeout comparison — whatever the timeout budget, even zero. -/
theorem C10_fetch_before_timeout_check (env : Env) (target : String)
    (k code timeout : Nat) :
    (wait_for_server_status env target k code timeout).events.head? = some .fetch ∧
    ((get_server env k).status_code = code → (get_server env k).status = target →
      wait_for_server_status env target k code timeout =
        ⟨[.fetch], .reached, k + 1⟩) := by
  have e1 : wait_for_server_status env target k code timeout =
      waitFrom env target code timeout k 0 (timeout + 1 + 1) := rfl
  constructor
  · rw [e1]
    simp only [waitFrom]
    by_cases h1 : (get_server env k).status_code = code
    · rw [if_pos h1]
      by_cases h2 : (get_server env k).status = target
      · rw [if_pos h2]
        rfl
      · rw [if_neg h2]
        by_cases h3 : (0 : Nat) > timeout
        · rw [if_pos h3]
          rfl
        · rw [if_neg h3]
          rfl
    · rw [if_neg h1]
      rfl
  · intro h1 h2
    rw [e1]
    simp only [waitFrom]
    rw [if_pos h1, if_pos h2]

/-- A run whose server already reports the target status. -/
def immediateEnv : Env :=
  ⟨"y", fun _ => ⟨200, "running", ""⟩, fun _ => ⟨201, ""⟩, ⟨201, ""⟩⟩

theorem C10_witness :
    (wait_for_server_status immediateEnv "running" 0 200 0).events.head? =
      some .fetch ∧
    wait_for_server_status immediateEnv "running" 0 200 0 =
      ⟨[.fetch], .reached, 1⟩ :=
  ⟨(C10_fetch_before_timeout_check immediateEnv "running" 0 200 0).1,
    (C10_fetch_before_timeout_check immediateEnv "running" 0 200 0).2 rfl rfl⟩

/-- C2: when the wait for status `off` during the Stopping phase fails by
exceeding its timeout, the run reports the timeout, exits with a non-zero
status, and the change_type endpoint is never invoked. -/
theorem C2_stop_timeout_aborts (env : Env) (st : String) (d : Bool)
    (hconf : pyLower env.confirm = "y")
    (h200 : (get_server env 0).status_code = 200)
    (hrun : (get_server env 0).status = "running")
    (hpo : (server_action env "poweroff").status_code = 201)
    (hw : (wait_for_server_status env "off" 1).outcome = .timedOut) :
    (main env st d).exitCode ≠ 0 ∧
    .printed timeoutMsg ∈ (main env st d).events ∧
    ∀ e ∈ (main env st d).events, isChangeType e = false := by
  have hwb : (wait_for_server_status env "off" 1).outcome.toBool = false := by
    rw [hw]
    rfl
  have hok : (stop_server env 1).ok = false := by
    rw [stop_server_wait_failed env 1 hpo hwb]
  rw [main_affirm env st d hconf, mainBody_running_stop_failed env st d h200 hrun hok]
  refine ⟨by simp, ?_, ?_⟩
  · rw [stop_server_wait_failed env 1 hpo hwb]
    have hmem := wait_timedOut_mem env "off" 1 200 300 hw
    simp [hmem]
  · intro e he
    simp at he
    rcases he with he | he | he | he | he | he
    · subst he; rfl
    · subst he; rfl
    · subst he; rfl
    · subst he; rfl
    · exact stop_server_no_changeType env 1 e he
    · subst he; rfl

/-- A run where the server stays `stopping` forever, so the wait for `off`
times out. -/
def stopTimeoutEnv : Env :=
  ⟨"y", fun n => if n = 0 then ⟨200, "running", ""⟩ else ⟨200, "stopping", ""⟩,
    fun _ => ⟨201, ""⟩, ⟨201, ""⟩⟩

set_option maxRecDepth 10000 in
theorem C2_witness :
    (main stopTimeoutEnv "cpx21" false).exitCode ≠ 0 ∧
    .printed timeoutMsg ∈ (main stopTimeoutEnv "cpx21" false).events ∧
    ∀ e ∈ (main stopTimeoutEnv "cpx21" false).events, isChangeType e = false :=
  C2_stop_timeout_aborts stopTimeoutEnv "cpx21" false (by decide) (by decide)
    (by decide) (by decide) (by decide)

/-- C3: a run whose server is initially `running` and whose operator confirms
with `y` issues exactly: the intro message and prompt, one status fetch, the
poweroff action, the poll until `off`, the 5-unit settle sleep, the
change_type action with the requested type and disk flag, the poll until
`running`, and exits 0; both polls consist solely of fetches, timeout
comparisons and 1-unit sleeps. -/
theorem C3_running_confirmed_full_sequence (env : Env) (st : String) (d : Bool)
    (hconf : pyLower env.confirm = "y")
    (h200 : (get_server env 0).status_code = 200)
    (hrun : (get_server env 0).status = "running")
    (hpo : (server_action env "poweroff").status_code = 201)
    (hwOff : (wait_for_server_status env "off" 1).outcome = .reached)
    (hct : (change_server_type env).status_code = 201)
    (hwRun : (wait_for_server_status env "running"
        (wait_for_server_status env "off" 1).next).outcome = .reached) :
    main env st d =
      ⟨.printed introMsg :: .prompt :: .fetch :: .printed runningMsg ::
          .action "poweroff" :: .printed stoppingMsg ::
          ((wait_for_server_status env "off" 1).events ++
            (.printed stoppedMsg :: .printed settleMsg :: .sleep 5 ::
              .actionChangeType st d :: .printed (scalingMsg st) :: .printed bootMsg ::
              ((wait_for_server_status env "running"
                  (wait_for_server_status env "off" 1).next).events ++
                [.printed accessibleMsg]))), 0⟩ ∧
    (∀ e ∈ (wait_for_server_status env "off" 1).events,
      e = .fetch ∨ e = .timeoutCheck ∨ e = .sleep 1) ∧
    (∀ e ∈ (wait_for_server_status env "running"
        (wait_for_server_status env "off" 1).next).events,
      e = .fetch ∨ e = .timeoutCheck ∨ e = .sleep 1) := by
  have hwOffb : (wait_for_server_status env "off" 1).outcome.toBool = true := by
    rw [hwOff]
    rfl
  have hwRunb : (wait_for_server_status env "running"
      (wait_for_server_status env "off" 1).next).outcome.toBool = true := by
    rw [hwRun]
    rfl
  have hok : (stop_server env 1).ok = true := by
    rw [stop_server_ok env 1 hpo hwOffb]
  refine ⟨?_, wait_reached_shape env "off" 1 200 300 hwOff,
    wait_reached_shape env "running" (wait_for_server_status env "off" 1).next
      200 300 hwRun⟩
  rw [main_affirm env st d hconf, mainBody_running_stop_ok env st d h200 hrun hok,
    stop_server_ok env 1 hpo hwOffb]
  dsimp only
  rw [mainScale_accepted env st d (wait_for_server_status env "off" 1).next hct,
    hwRunb]
  simp

/-- A run that goes through the whole sequence: `running`, one intermediate
`stopping` poll, `off`, then `running` again after the resize. -/
def fullSeqEnv : Env :=
  ⟨"y",
    fun n =>
      if n = 0 then ⟨200, "running", ""⟩
      else if n = 1 then ⟨200, "stopping", ""⟩
      else if n = 2 then ⟨200, "off", ""⟩
      else ⟨200, "running", ""⟩,
    fun _ => ⟨201, ""⟩, ⟨201, ""⟩⟩

theorem C3_witness :
    main fullSeqEnv "cpx21" false =
      ⟨.printed introMsg :: .prompt :: .fetch :: .printed runningMsg ::
          .action "poweroff" :: .printed stoppingMsg ::
          ((wait_for_server_status fullSeqEnv "off" 1).events ++
            (.printed stoppedMsg :: .printed settleMsg :: .sleep 5 ::
              .actionChangeType "cpx21" false :: .printed (scalingMsg "cpx21") ::
              .printed bootMsg ::
              ((wait_for_server_status fullSeqEnv "running"
                  (wait_for_server_status fullSeqEnv "off" 1).next).events ++
                [.printed accessibleMsg]))), 0⟩ ∧
    (∀ e ∈ (wait_for_server_status fullSeqEnv "off" 1).events,
      e = .fetch ∨ e = .timeoutCheck ∨ e = .sleep 1) ∧
    (∀ e ∈ (wait_for_server_status fullSeqEnv "running"
        (wait_for_server_status fullSeqEnv "off" 1).next).events,
      e = .fetch ∨ e = .timeoutCheck ∨ e = .sleep 1) :=
  C3_running_confirmed_full_sequence fullSeqEnv "cpx21" false (by decide) (by decide)
    (by decide) (by decide) (by decide) (by decide) (by decide)

/-- C4: whenever the initial status fetch succeeds with a status other than
`running`, the run performs no named action at all (in particular no
poweroff and no wait for `off`) and the change_type action is the very next
remote call after the initial fetch. -/
theorem C4_not_running_skips_stop (env : Env) (st : String) (d : Bool)
    (hconf : pyLower env.confirm = "y")
    (h200 : (get_server env 0).status_code = 200)
    (hne : (get_server env 0).status ≠ "running") :
    (∀ e ∈ (main env st d).events, ∀ a, e ≠ .action a) ∧
    ∃ rest, (main env st d).events =
      [.printed introMsg, .prompt, .fetch, .printed notRunningMsg,
        .actionChangeType st d] ++ rest := by
  rw [main_affirm env st d hconf, mainBody_not_running env st d h200 hne]
  constructor
  · intro e he a
    simp at he
    rcases he with he | he | he | he | he
    · subst he; simp
    · subst he; simp
    · subst he; simp
    · subst he; simp
    · exact mainScale_no_action env st d 1 e he a
  · by_cases hct : (change_server_type env).status_code = 201
    · rw [mainScale_accepted env st d 1 hct]
      refine ⟨.printed (scalingMsg st) :: .printed bootMsg ::
          ((wait_for_server_status env "running" 1).events ++
            [.printed (cond (wait_for_server_status env "running" 1).outcome.toBool
              accessibleMsg restartFailMsg)]), ?_⟩
      simp
    · rw [mainScale_rejected env st d 1 hct]
      refine ⟨[.printed (errMsg (change_server_type env).status_code
          (change_server_type env).text), .printed abortedMsg], ?_⟩
      simp

/-- A run whose server is already `off` at the initial check. -/
def alreadyOffEnv : Env :=
  ⟨"y", fun n => if n = 0 then ⟨200, "off", ""⟩ else ⟨200, "running", ""⟩,
    fun _ => ⟨201, ""⟩, ⟨201, ""⟩⟩

theorem C4_witness :
    (∀ e ∈ (main alreadyOffEnv "cpx31" true).events, ∀ a, e ≠ .action a) ∧
    ∃ rest, (main alreadyOffEnv "cpx31" true).events =
      [.printed introMsg, .prompt, .fetch, .printed notRunningMsg,
        .actionChangeType "cpx31" true] ++ rest :=
  C4_not_running_skips_stop alreadyOffEnv "cpx31" true (by decide) (by decide)
    (by decide)

/-- C5 fails as stated: in this run the prompt occurs (at position 1), a
fetch occurs (later), and no fetch precedes the prompt — `main` asks for
confirmation before it ever queries the server's state. -/
theorem C5_counterexample :
    Event.prompt ∈ (main alreadyOffEnv "cpx31" true).events ∧
    Event.fetch ∈ (main alreadyOffEnv "cpx31" true).events ∧
    ¬ ∃ i j, i < j ∧
      (main alreadyOffEnv "cpx31" true).events.get? i = some Event.fetch ∧
      (main alreadyOffEnv "cpx31" true).events.get? j = some Event.prompt := by
  refine ⟨by decide, by decide, ?_⟩
  intro hex
  have h1 := (precedesB_iff Event.fetch Event.prompt
    (main alreadyOffEnv "cpx31" true).events).mpr hex
  have h2 : precedesB Event.fetch Event.prompt
      (main alreadyOffEnv "cpx31" true).events = false := by decide
  rw [h2] at h1
  exact Bool.false_ne_true h1

/-- C5 (amended): in every run the confirmation prompt is presented before
any status fetch: the trace begins with the intro message followed by the
prompt, the prompt never recurs, a declined run contains no fetch at all,
and in an affirmed run the status fetch is the very next event after the
prompt. -/
theorem C5_prompt_precedes_fetch (env : Env) (st : String) (d : Bool) :
    ∃ rest, (main env st d).events = .printed introMsg :: .prompt :: rest ∧
      Event.prompt ∉ rest ∧
      (pyLower env.confirm ≠ "y" → Event.fetch ∉ (main env st d).events) ∧
      (pyLower env.confirm = "y" → ∃ tail, rest = .fetch :: tail) := by
  by_cases hconf : pyLower env.confirm = "y"
  · rw [main_affirm env st d hconf]
    refine ⟨(mainBody env st d).events, rfl, mainBody_no_prompt env st d, ?_, ?_⟩
    · intro hcon
      exact absurd hconf hcon
    · intro _
      exact mainBody_starts_fetch env st d
  · rw [main_decline env st d hconf]
    refine ⟨[.printed abortedMsg], rfl, by simp, ?_, ?_⟩
    · intro _
      simp
    · intro hc
      exact absurd hc hconf

theorem C5_witness :
    ∃ rest, (main immediateEnv "cpx11" false).events =
        .printed introMsg :: .prompt :: rest ∧
      Event.prompt ∉ rest ∧
      (pyLower immediateEnv.confirm ≠ "y" →
        Event.fetch ∉ (main immediateEnv "cpx11" false).events) ∧
      (pyLower immediateEnv.confirm = "y" → ∃ tail, rest = .fetch :: tail) :=
  C5_prompt_precedes_fetch immediateEnv "cpx11" false

/-- C7: an action response with a code other than 201 is a failure whose
report carries the code and body verbatim, the action is issued exactly once
(no retry), and the run exits non-zero; a 201 response is treated as
accepted. -/
theorem C7_action_response_policy (env : Env) (st : String) (d : Bool) (k : Nat) :
    ((server_action env "poweroff").status_code ≠ 201 →
      stop_server env k =
        ⟨[.action "poweroff",
            .printed (errMsg (server_action env "poweroff").status_code
              (server_action env "poweroff").text)], false, k⟩) ∧
    ((change_server_type env).status_code ≠ 201 →
      scale_server env st d =
        ([.actionChangeType st d,
            .printed (errMsg (change_server_type env).status_code
              (change_server_type env).text)], false)) ∧
    ((server_action env "poweroff").status_code = 201 →
      ∃ rest, (stop_server env k).events =
        .action "poweroff" :: .printed stoppingMsg :: rest) ∧
    ((change_server_type env).status_code = 201 →
      scale_server env st d =
        ([.actionChangeType st d, .printed (scalingMsg st)], true)) ∧
    (pyLower env.confirm = "y" → (get_server env 0).status_code = 200 →
      (get_server env 0).status = "running" →
      (server_action env "poweroff").status_code ≠ 201 →
      (main env st d).exitCode ≠ 0) ∧
    (pyLower env.confirm = "y" → (get_server env 0).status_code = 200 →
      (get_server env 0).status ≠ "running" →
      (change_server_type env).status_code ≠ 201 →
      (main env st d).exitCode ≠ 0) ∧
    (pyLower env.confirm = "y" → (get_server env 0).status_code = 200 →
      (get_server env 0).status = "running" →
      (server_action env "poweroff").status_code = 201 →
      (wait_for_server_status env "off" 1).outcome = .reached →
      (change_server_type env).status_code ≠ 201 →
      (main env st d).exitCode ≠ 0) := by
  refine ⟨stop_server_rejected env k, scale_server_rejected env st d, ?_,
    scale_server_accepted env st d, ?_, ?_, ?_⟩
  · intro hpo
    cases hw : (wait_for_server_status env "off" k).outcome.toBool
    · rw [stop_server_wait_failed env k hpo hw]
      exact ⟨_, rfl⟩
    · rw [stop_server_ok env k hpo hw]
      exact ⟨_, rfl⟩
  · intro hconf h200 hrun hpo
    have hok : (stop_server env 1).ok = false := by
      rw [stop_server_rejected env 1 hpo]
    rw [main_affirm env st d hconf,
      mainBody_running_stop_failed env st d h200 hrun hok]
    simp
  · intro hconf h200 hne hct
    rw [main_affirm env st d hconf, mainBody_not_running env st d h200 hne,
      mainScale_rejected env st d 1 hct]
    simp
  · intro hconf h200 hrun hpo hwOff hct
    have hwOffb : (wait_for_server_status env "off" 1).outcome.toBool = true := by
      rw [hwOff]
      rfl
    have hok : (stop_server env 1).ok = true := by
      rw [stop_server_ok env 1 hpo hwOffb]
    rw [main_affirm env st d hconf,
      mainBody_running_stop_ok env st d h200 hrun hok,
      mainScale_rejected env st d (stop_server env 1).next hct]
    simp

/-- A run whose poweroff action is rejected with HTTP 423. -/
def poRejectEnv : Env :=
  ⟨"y", fun _ => ⟨200, "running", ""⟩, fun _ => ⟨423, "Locked"⟩, ⟨201, ""⟩⟩

/-- A run whose change_type action is rejected with HTTP 500. -/
def ctRejectEnv : Env :=
  ⟨"y", fun _ => ⟨200, "off", ""⟩, fun _ => ⟨201, ""⟩, ⟨500, "boom"⟩⟩

/-- A run that is `running`, stops successfully, and then has its
change_type action rejected with HTTP 500. -/
def ctRejectAfterStopEnv : Env :=
  ⟨"y", fun n => if n = 0 then ⟨200, "running", ""⟩ else ⟨200, "off", ""⟩,
    fun _ => ⟨201, ""⟩, ⟨500, "boom"⟩⟩

theorem C7_witness :
    stop_server poRejectEnv 1 =
      ⟨[.action "poweroff", .printed (errMsg 423 "Locked")], false, 1⟩ ∧
    (main poRejectEnv "cpx21" false).exitCode ≠ 0 ∧
    scale_server ctRejectEnv "cpx21" false =
      ([.actionChangeType "cpx21" false, .printed (errMsg 500 "boom")], false) ∧
    (main ctRejectEnv "cpx21" false).exitCode ≠ 0 ∧
    scale_server poRejectEnv "cpx21" false =
      ([.actionChangeType "cpx21" false, .printed (scalingMsg "cpx21")], true) ∧
    (∃ rest, (stop_server ctRejectEnv 1).events =
      .action "poweroff" :: .printed stoppingMsg :: rest) ∧
    (main ctRejectAfterStopEnv "cpx21" false).exitCode ≠ 0 :=
  ⟨(C7_action_response_policy poRejectEnv "cpx21" false 1).1 (by decide),
    (C7_action_response_policy poRejectEnv "cpx21" false 1).2.2.2.2.1
      (by decide) (by decide) (by decide) (by decide),
    (C7_action_response_policy ctRejectEnv "cpx21" false 1).2.1 (by decide),
    (C7_action_response_policy ctRejectEnv "cpx21" false 1).2.2.2.2.2.1
      (by decide) (by decide) (by decide) (by decide),
    (C7_action_response_policy poRejectEnv "cpx21" false 1).2.2.2.1 (by decide),
    (C7_action_response_policy ctRejectEnv "cpx21" false 1).2.2.1 (by decide),
    (C7_action_response_policy ctRejectAfterStopEnv "cpx21" false 1).2.2.2.2.2.2
      (by decide) (by decide) (by decide) (by decide) (by decide) (by decide)⟩

/-- C8: once the change_type action is accepted, the rest of `mainScale` is
messages and the poll for `running` (no state-changing call), the run exits
0 exactly when that poll reaches `running`, and — run-level — everything
after the first change_type event of any full run is free of state-changing
calls. -/
theorem C8_no_action_after_change (env : Env) (st : String) (d : Bool) (k : Nat)
    (hct : (change_server_type env).status_code = 201) :
    mainScale env st d k =
      ⟨[.actionChangeType st d, .printed (scalingMsg st), .printed bootMsg] ++
          (wait_for_server_status env "running" k).events ++
          [.printed (cond (wait_for_server_status env "running" k).outcome.toBool
            accessibleMsg restartFailMsg)],
        cond (wait_for_server_status env "running" k).outcome.toBool 0 1⟩ ∧
    (∀ e ∈ (wait_for_server_status env "running" k).events,
      isMutation e = false) ∧
    ((wait_for_server_status env "running" k).outcome = .reached →
      (mainScale env st d k).exitCode = 0) ∧
    (∀ post, afterChangeType (main env st d).events = some post →
      ∀ e ∈ post, isMutation e = false) := by
  refine ⟨mainScale_accepted env st d k hct,
    wait_no_mutation env "running" k 200 300, ?_,
    main_no_mutation_after env st d⟩
  intro hr
  have hb : (wait_for_server_status env "running" k).outcome.toBool = true := by
    rw [hr]
    rfl
  rw [mainScale_accepted env st d k hct]
  simp [hb]

theorem C8_witness :
    (mainScale immediateEnv "cpx11" false 0).exitCode = 0 ∧
    (∀ e ∈ (wait_for_server_status immediateEnv "running" 0).events,
      isMutation e = false) ∧
    (∀ post, afterChangeType (main immediateEnv "cpx11" false).events = some post →
      ∀ e ∈ post, isMutation e = false) :=
  ⟨(C8_no_action_after_change immediateEnv "cpx11" false 0 (by decide)).2.2.1
      (by decide),
    (C8_no_action_after_change immediateEnv "cpx11" false 0 (by decide)).2.1,
    (C8_no_action_after_change immediateEnv "cpx11" false 0 (by decide)).2.2.2⟩

/-- Arguments that supply an empty api_key on the command line. -/
def cliEmptyArgs : Args := ⟨some "", some "7", "cpx11", false⟩

/-- A configuration file that supplies every option. -/
def fileConfig : ConfigFile := ⟨some "filekey", some "9", some true⟩

/-- C9 fails as stated: here both sources supply an api_key value (the
command line supplies the empty string), yet the merged value is the file's,
not the command line's — Python's `or` treats the empty string as absent. -/
theorem C9_counterexample :
    cliEmptyArgs.api_key = some "" ∧
    fileConfig.api_key = some "filekey" ∧
    merged_api_key cliEmptyArgs fileConfig = .ok "filekey" ∧
    merged_api_key cliEmptyArgs fileConfig ≠ .ok "" := by
  refine ⟨rfl, rfl, rfl, ?_⟩
  intro h
  rw [show merged_api_key cliEmptyArgs fileConfig = Except.ok "filekey" from rfl] at h
  simp only [Except.ok.injEq] at h
  exact absurd h (by decide)

/-- C9 (amended): a non-empty command-line api_key or server_id overrides
the file value (an empty command-line string falls back to the file);
passing the disk-upgrade flag on the command line overrides the file; the
target server type is taken from the command line alone, so a command-line
value is always the one used. -/
theorem C9_cli_override_amended (a : Args) (c : ConfigFile) :
    (∀ s, a.api_key = some s → s ≠ "" → merged_api_key a c = .ok s) ∧
    (∀ s, a.server_id = some s → s ≠ "" → merged_server_id a c = .ok s) ∧
    (a.upgrade_disk = true → merged_upgrade_disk a c = true) ∧
    merged_server_type a c = a.server_type := by
  refine ⟨?_, ?_, ?_, rfl⟩
  · intro s hs hne
    simp [merged_api_key, hs, hne]
  · intro s hs hne
    simp [merged_server_id, hs, hne]
  · intro h
    simp [merged_upgrade_disk, h]

/-- Arguments that supply every option on the command line. -/
def cliFullArgs : Args := ⟨some "k1", some "42", "cpx21", true⟩

theorem C9_witness :
    merged_api_key cliFullArgs fileConfig = .ok "k1" ∧
    merged_server_id cliFullArgs fileConfig = .ok "42" ∧
    merged_upgrade_disk cliFullArgs fileConfig = true ∧
    merged_server_type cliFullArgs fileConfig = "cpx21" :=
  ⟨(C9_cli_override_amended cliFullArgs fileConfig).1 "k1" rfl (by decide),
    (C9_cli_override_amended cliFullArgs fileConfig).2.1 "42" rfl (by decide),
    (C9_cli_override_amended cliFullArgs fileConfig).2.2.1 rfl,
    (C9_cli_override_amended cliFullArgs fileConfig).2.2.2⟩

end Rescale
